import Mathlib

/-!
Verification of the quote-resolution engine of themarket-api.

The repository consists of three Python files:
  core.py   - asset classification, per-provider symbol translation, and the
              three provider fetchers hitting the network directly;
  proxy.py  - a FastAPI app whose fetchers wrap every outbound URL in the
              AllOrigins relay, plus an lru_cache-memoized GET;
  server.py - a FastAPI app built on core.py, plus an allow-listed generic
              forwarding endpoint and an lru_cache-memoized GET that checks
              the allow-list inside the cached function.

Strings are modelled as `List Char`; the outbound network is modelled as an
oracle `HttpGet` mapping a request URL to either a parsed JSON document or a
failure message (covering transport errors, non-2xx statuses and non-JSON
bodies, all of which surface as exceptions from the Python helpers).
Python dict/list access, truthiness, float() conversion and lru_cache
memoization are given explicit executable models below.
-/

/-- The character list underlying a string literal. -/
def strData (s : String) : List Char := s.data

/-- ASCII upper-casing of one character, as Python str.upper acts on ASCII. -/
def pyUpperChar : Char → Char
  | 'a' => 'A' | 'b' => 'B' | 'c' => 'C' | 'd' => 'D' | 'e' => 'E' | 'f' => 'F'
  | 'g' => 'G' | 'h' => 'H' | 'i' => 'I' | 'j' => 'J' | 'k' => 'K' | 'l' => 'L'
  | 'm' => 'M' | 'n' => 'N' | 'o' => 'O' | 'p' => 'P' | 'q' => 'Q' | 'r' => 'R'
  | 's' => 'S' | 't' => 'T' | 'u' => 'U' | 'v' => 'V' | 'w' => 'W' | 'x' => 'X'
  | 'y' => 'Y' | 'z' => 'Z' | c => c

/-- ASCII lower-casing of one character, as Python str.lower acts on ASCII. -/
def pyLowerChar : Char → Char
  | 'A' => 'a' | 'B' => 'b' | 'C' => 'c' | 'D' => 'd' | 'E' => 'e' | 'F' => 'f'
  | 'G' => 'g' | 'H' => 'h' | 'I' => 'i' | 'J' => 'j' | 'K' => 'k' | 'L' => 'l'
  | 'M' => 'm' | 'N' => 'n' | 'O' => 'o' | 'P' => 'p' | 'Q' => 'q' | 'R' => 'r'
  | 'S' => 's' | 'T' => 't' | 'U' => 'u' | 'V' => 'v' | 'W' => 'w' | 'X' => 'x'
  | 'Y' => 'y' | 'Z' => 'z' | c => c

/-- Python str.upper on a symbol string. -/
def pyUpper (s : List Char) : List Char := s.map pyUpperChar

/-- Python str.lower on a symbol string. -/
def pyLower (s : List Char) : List Char := s.map pyLowerChar

/-- Python str.replace of every occurrence of the two-character pattern
made of an equals sign followed by an upper-case F with the empty string,
scanning left to right without overlap. -/
def replaceEF : List Char → List Char
  | '=' :: 'F' :: rest => replaceEF rest
  | c :: rest => c :: replaceEF rest
  | [] => []

/-- Does the first list appear at the very start of the second list? -/
def leadMatch : List Char → List Char → Bool
  | [], _ => true
  | _ :: _, [] => false
  | a :: as, b :: bs => a = b && leadMatch as bs

/-- Python substring membership test on character lists. -/
def strContains (needle : List Char) : List Char → Bool
  | [] => leadMatch needle []
  | c :: rest => leadMatch needle (c :: rest) || strContains needle rest

/-- Numeric value of a run of decimal digit characters. -/
def digitsToNat (ds : List Char) : Nat :=
  ds.foldl (fun a c => a * 10 + (c.toNat - 48)) 0

/-- Concatenation of a list of character lists. -/
def listFlat : List (List Char) → List Char
  | [] => []
  | l :: ls => l ++ listFlat ls

/-- Parsed JSON documents, as produced by response .json(). A JSON null is
the model of the Python value None, so an absent-or-null dict entry reads
back as `Json.null` exactly as dict.get returns None. -/
inductive Json where
  | null
  | bool (b : Bool)
  | num (q : Rat)
  | str (s : String)
  | arr (elems : List Json)
  | obj (fields : List (String × Json))

/-- Lookup of a key among the fields of a JSON object, first match wins. -/
def jlookup : List (String × Json) → String → Option Json
  | [], _ => none
  | (k, v) :: rest, key => if k = key then some v else jlookup rest key

/-- Python truthiness of a JSON value: None, False, zero, and empty
strings, lists and dicts are falsy. -/
def pyTruthy : Json → Bool
  | .null => false
  | .bool b => b
  | .num q => if q = 0 then false else true
  | .str s => !s.isEmpty
  | .arr l => !l.isEmpty
  | .obj l => !l.isEmpty

/-- Is this JSON value the model of the Python value None? -/
def isNull : Json → Bool
  | .null => true
  | _ => false

/-- Python equality comparison of a JSON value against a string literal. -/
def jsonStrEq (j : Json) (s : String) : Bool :=
  match j with
  | .str t => t = s
  | _ => false

/-- Python dict.get with a default: returns the stored value or the default
on a dict, and raises AttributeError on every other value. -/
def pyDictGetE (j : Json) (key : String) (dflt : Json) : Except String Json :=
  match j with
  | .obj fields => .ok ((jlookup fields key).getD dflt)
  | _ => .error "AttributeError: object has no attribute get"

/-- Python subscripting with index 0: first element of a list, first
character of a string, and a raised error on everything else. -/
def pyIndex0 : Json → Except String Json
  | .arr (x :: _) => .ok x
  | .arr [] => .error "IndexError: list index out of range"
  | .str s =>
    match s.data with
    | c :: _ => .ok (.str (String.mk [c]))
    | [] => .error "IndexError: string index out of range"
  | _ => .error "TypeError: object is not subscriptable"

/-- Length of a JSON array, zero on any non-array value. -/
def jsonArrLen : Json → Nat
  | .arr l => l.length
  | _ => 0

/-- Is this JSON value a non-empty array? -/
def jsonIsNonemptyArr : Json → Bool
  | .arr (_ :: _) => true
  | _ => false

/-- Optional exponent tail of a Python float literal: empty input keeps the
mantissa, an e or E introduces an optionally signed all-digit exponent. -/
def parseExpTail (base : Rat) : List Char → Option Rat
  | [] => some base
  | e :: rest =>
    if e = 'e' ∨ e = 'E' then
      let signed : Bool × List Char :=
        match rest with
        | '+' :: t => (false, t)
        | '-' :: t => (true, t)
        | t => (false, t)
      if signed.2 ≠ [] ∧ signed.2.all Char.isDigit then
        let k := digitsToNat signed.2
        some (if signed.1 then base / (10 : Rat) ^ k else base * (10 : Rat) ^ k)
      else none
    else none

/-- Unsigned body of a Python float literal: digits with an optional dot
and fraction, at least one digit overall, then an optional exponent. -/
def parseUnsignedFloat (s : List Char) : Option Rat :=
  let ip := s.takeWhile Char.isDigit
  let rest1 := s.drop ip.length
  match rest1 with
  | '.' :: rest2 =>
    let fp := rest2.takeWhile Char.isDigit
    let rest3 := rest2.drop fp.length
    if ip.isEmpty && fp.isEmpty then none
    else
      parseExpTail ((digitsToNat ip : Rat) + (digitsToNat fp : Rat) / (10 : Rat) ^ fp.length) rest3
  | _ => if ip.isEmpty then none else parseExpTail (digitsToNat ip : Rat) rest1

/-- Python float() on a string: surrounding spaces stripped, optional sign,
decimal digits with optional fraction and exponent. -/
def parsePyFloat (s : List Char) : Option Rat :=
  let t := ((s.dropWhile (· = ' ')).reverse.dropWhile (· = ' ')).reverse
  match t with
  | '+' :: rest => parseUnsignedFloat rest
  | '-' :: rest => (parseUnsignedFloat rest).map (fun q => -q)
  | rest => parseUnsignedFloat rest

/-- Python float() on a JSON value: numbers pass through, booleans become
zero or one, parseable strings are converted, everything else raises. -/
def pyFloat : Json → Except String Rat
  | .num q => .ok q
  | .bool b => .ok (if b then 1 else 0)
  | .str s =>
    match parsePyFloat s.data with
    | some q => .ok q
    | none => .error "ValueError: could not convert string to float"
  | _ => .error "TypeError: float() argument must be a string or a real number"

/-- Is this character left unescaped by urllib.parse.quote with an empty
safe set (letters, digits, underscore, dot, hyphen, tilde)? -/
def isUnreservedChar (c : Char) : Bool :=
  c.isAlpha || c.isDigit || c = '_' || c = '.' || c = '-' || c = '~'

/-- Upper-case hexadecimal digit for a value below sixteen. -/
def hexDigitChar (n : Nat) : Char :=
  if n < 10 then Char.ofNat (48 + n) else Char.ofNat (55 + n)

/-- UTF-8 byte sequence of one character, as urllib encodes non-ASCII. -/
def utf8Bytes (c : Char) : List Nat :=
  let n := c.toNat
  if n < 128 then [n]
  else if n < 2048 then [192 + n / 64, 128 + n % 64]
  else if n < 65536 then [224 + n / 4096, 128 + (n / 64) % 64, 128 + n % 64]
  else [240 + n / 262144, 128 + (n / 4096) % 64, 128 + (n / 64) % 64, 128 + n % 64]

/-- Percent-escape of one byte. -/
def pctEncByte (b : Nat) : List Char :=
  ['%', hexDigitChar (b / 16), hexDigitChar (b % 16)]

/-- urllib.parse.quote of one character with an empty safe set. -/
def quoteChar (c : Char) : List Char :=
  if isUnreservedChar c then [c] else listFlat ((utf8Bytes c).map pctEncByte)

/-- urllib.parse.quote with an empty safe set: every reserved character is
percent-escaped via its UTF-8 bytes. -/
def urlquote (s : List Char) : List Char := listFlat (s.map quoteChar)

/-- The outbound network, as seen through requests.get followed by
raise_for_status and .json(): a URL either yields a parsed JSON document or
raises (transport failure, non-2xx status, or unparsable body). -/
abbrev HttpGet := List Char → Except String Json

/-- What a FastAPI handler surfaces to its caller: a response body, or an
HTTPException carrying an HTTP error status and a detail message. -/
inductive HttpOut (α : Type) where
  | body (a : α)
  | httpError (statusCode : Nat) (detail : String)

/-- The memo store of functools.lru_cache keyed by the url argument,
most recently used entry first. -/
abbrev Cache := List (List Char × Json)

/-- Lookup of a URL key in the memo store. -/
def cacheLookup : Cache → List Char → Option Json
  | [], _ => none
  | (k, v) :: rest, url => if k = url then some v else cacheLookup rest url

/-- Removal of the first entry stored under a URL key. -/
def cacheErase : Cache → List Char → Cache
  | [], _ => []
  | (k, v) :: rest, url => if k = url then rest else (k, v) :: cacheErase rest url

/-- One call through functools.lru_cache with the given capacity: a hit
returns the memoized value and refreshes its recency without running the
wrapped function; a miss runs the wrapped function, memoizes the value
only when the call returns normally (a raised exception is never stored,
leaving the memo store untouched), and evicts from the least recently used
end beyond capacity. The final component counts how many times the wrapped
function body ran (zero on a hit, one on a miss). -/
def lruCall (cap : Nat) (fetchBody : HttpGet) (st : Cache) (url : List Char) :
    Except String Json × Cache × Nat :=
  match cacheLookup st url with
  | some v => (.ok v, (url, v) :: cacheErase st url, 0)
  | none =>
    match fetchBody url with
    | .ok v => (.ok v, ((url, v) :: st).take cap, 1)
    | .error e => (.error e, st, 1)

/-- detect_asset_type from core.py, textually identical in proxy.py:
upper-case the symbol, classify a leading caret as index, then an equals
sign anywhere as future, and everything else as stock. -/
def detect_asset_type (symbol : List Char) : String :=
  let s := pyUpper symbol
  if s.head? = some '^' then "index"
  else if '=' ∈ s then "future"
  else "stock"

/-- stooq_symbol_for_stock from core.py, textually identical in proxy.py:
lower-case plus a dot-us suffix. -/
def stooq_symbol_for_stock (ticker : List Char) : List Char :=
  pyLower ticker ++ strData ".us"

/-- stooq_symbol_for_future from core.py, textually identical in proxy.py:
upper-case, strip the equals-F suffix, lower-case, add a dot-f suffix. -/
def stooq_symbol_for_future (symbol : List Char) : List Char :=
  pyLower (replaceEF (pyUpper symbol)) ++ strData ".f"

/-- stooq_symbol_for_index from core.py, textually identical in proxy.py:
lower-case verbatim, caret retained. -/
def stooq_symbol_for_index (symbol : List Char) : List Char :=
  pyLower symbol

/-- The per-asset-class dispatch to a Stooq symbol, as written inline in
the fallback branch of get_price in both server.py and proxy.py, with the
stock translation as the default for an unknown class. -/
def stooq_symbol_for (asset_type : String) (symbol : List Char) : List Char :=
  if asset_type = "stock" then stooq_symbol_for_stock symbol
  else if asset_type = "future" then stooq_symbol_for_future symbol
  else if asset_type = "index" then stooq_symbol_for_index symbol
  else stooq_symbol_for_stock symbol

/-- The shared membership-and-usd check of the CoinGecko response shape,
as written in fetch_crypto_price of core.py and fetch_coingecko_price of
proxy.py: the coin identifier must key a dict holding a usd entry, which
is then converted with float(). -/
def coingecko_usd (coin_id : String) (data : Json) : Except String Rat :=
  match data with
  | .obj fields =>
    match jlookup fields coin_id with
    | none => .error "No CoinGecko price"
    | some (.obj efields) =>
      match jlookup efields "usd" with
      | none => .error "No CoinGecko price"
      | some usd => pyFloat usd
    | some (.arr l) =>
      if l.any (fun j => jsonStrEq j "usd") then
        .error "TypeError: list indices must be integers"
      else .error "No CoinGecko price"
    | some (.str t) =>
      if strContains (strData "usd") t.data then
        .error "TypeError: string indices must be integers"
      else .error "No CoinGecko price"
    | some _ => .error "TypeError: argument is not iterable"
  | _ => .error "TypeError: argument is not iterable"

namespace Core

/-- The Yahoo chart URL built in fetch_yahoo_chart of core.py: the v8
chart endpoint with the percent-encoded symbol and a daily three-month
window. -/
def yahoo_chart_url (symbol : List Char) : List Char :=
  strData "https://query2.finance.yahoo.com/v8/finance/chart/" ++ urlquote symbol
    ++ strData "?interval=1d&range=3mo"

/-- The values fetch_yahoo_chart of core.py extracts from the parsed chart
document before assembling its result dict. -/
structure ChartFields where
  regularMarketPrice : Json
  previousClose : Json
  exchangeName : Json
  currency : Json
  marketState : Json
  timestamps : Json
  opn : Json
  high : Json
  low : Json
  close : Json
  volume : Json

/-- The extraction pipeline of fetch_yahoo_chart in core.py after the HTTP
call: chart.result must be truthy, its first element yields meta and the
first quote block, and every field is read with dict.get and the defaults
written in the source (null for scalars, an empty list for each array). -/
def chart_fields (data : Json) : Except String ChartFields := do
  let chartField ← pyDictGetE data "chart" (Json.obj [])
  let result ← pyDictGetE chartField "result" Json.null
  if !pyTruthy result then throw "No Yahoo Chart data"
  let chart ← pyIndex0 result
  let meta ← pyDictGetE chart "meta" (Json.obj [])
  let indicators ← pyDictGetE chart "indicators" (Json.obj [])
  let quoteList ← pyDictGetE indicators "quote" (Json.arr [Json.obj []])
  let quote_block ← pyIndex0 quoteList
  let rmp ← pyDictGetE meta "regularMarketPrice" Json.null
  let pc ← pyDictGetE meta "previousClose" Json.null
  let ex ← pyDictGetE meta "exchangeName" Json.null
  let cur ← pyDictGetE meta "currency" Json.null
  let ms ← pyDictGetE meta "marketState" Json.null
  let ts ← pyDictGetE chart "timestamp" (Json.arr [])
  let o ← pyDictGetE quote_block "open" (Json.arr [])
  let h ← pyDictGetE quote_block "high" (Json.arr [])
  let l ← pyDictGetE quote_block "low" (Json.arr [])
  let c ← pyDictGetE quote_block "close" (Json.arr [])
  let v ← pyDictGetE quote_block "volume" (Json.arr [])
  pure { regularMarketPrice := rmp, previousClose := pc, exchangeName := ex,
         currency := cur, marketState := ms, timestamps := ts,
         opn := o, high := h, low := l, close := c, volume := v }

/-- The dict returned by fetch_yahoo_chart of core.py: a fixed source tag,
the upper-cased symbol, and the extracted metadata and OHLCV arrays. -/
structure YahooChart where
  source : String
  symbol : List Char
  regularMarketPrice : Json
  previousClose : Json
  exchangeName : Json
  currency : Json
  marketState : Json
  timestamps : Json
  opn : Json
  high : Json
  low : Json
  close : Json
  volume : Json

/-- Parsing step of fetch_yahoo_chart in core.py: extract the fields and
assemble the result dict around the upper-cased symbol. -/
def parse_yahoo_chart (symbol : List Char) (data : Json) : Except String YahooChart :=
  (chart_fields data).map fun f =>
    { source := "yahoo_chart", symbol := pyUpper symbol,
      regularMarketPrice := f.regularMarketPrice, previousClose := f.previousClose,
      exchangeName := f.exchangeName, currency := f.currency, marketState := f.marketState,
      timestamps := f.timestamps, opn := f.opn, high := f.high, low := f.low,
      close := f.close, volume := f.volume }

/-- fetch_yahoo_chart of core.py: a direct (unrelayed) GET of the chart
URL followed by the extraction pipeline; every failure propagates. -/
def fetch_yahoo_chart (g : HttpGet) (symbol : List Char) : Except String YahooChart := do
  let data ← g (yahoo_chart_url symbol)
  parse_yahoo_chart symbol data

/-- The Stooq quote URL built in fetch_stooq_quote, textually identical in
core.py and proxy.py; the symbol is interpolated without encoding. -/
def stooq_url (symbol : List Char) : List Char :=
  strData "https://stooq.com/q/l/?s=" ++ symbol ++ strData "&f=sd2t2ohlcv&h&e=json"

/-- Response handling of fetch_stooq_quote in core.py: the document must
be a non-empty list, the close field of its first row must be truthy and
not the sentinel, and is then converted with float(). -/
def parse_stooq (data : Json) : Except String Rat :=
  match data with
  | .arr (row :: _) => do
    let close ← pyDictGetE row "close" Json.null
    if !pyTruthy close || jsonStrEq close "N/A" then throw "Stooq close unavailable"
    pyFloat close
  | .arr [] => .error "Invalid Stooq response"
  | _ => .error "Invalid Stooq response"

/-- fetch_stooq_quote of core.py: a direct (unrelayed) GET of the Stooq
URL followed by the response handling; every failure propagates. -/
def fetch_stooq_quote (g : HttpGet) (symbol : List Char) : Except String Rat := do
  let data ← g (stooq_url symbol)
  parse_stooq data

/-- The CoinGecko simple-price URL, textually identical in core.py and
proxy.py; the coin identifier is interpolated without encoding. -/
def coingecko_url (coin_id : List Char) : List Char :=
  strData "https://api.coingecko.com/api/v3/simple/price?ids=" ++ coin_id
    ++ strData "&vs_currencies=usd"

/-- The dict returned by fetch_crypto_price of core.py. -/
structure CryptoQuote where
  source : String
  symbol : List Char
  price : Rat

/-- fetch_crypto_price of core.py: lower-case the symbol into a coin
identifier, GET the CoinGecko URL directly, require the coin and usd
entries, and return the tagged quote around the upper-cased symbol. -/
def fetch_crypto_price (g : HttpGet) (symbol : List Char) : Except String CryptoQuote := do
  let coin_id := pyLower symbol
  let data ← g (coingecko_url coin_id)
  let p ← coingecko_usd (String.mk coin_id) data
  pure { source := "coingecko", symbol := pyUpper symbol, price := p }

end Core

namespace Proxy

/-- proxy_url of proxy.py: wrap a raw external URL in the AllOrigins
relay, percent-encoding the whole target. This is the only relay the code
configures; no list of fallback relays exists anywhere in the source. -/
def proxy_url (raw_url : List Char) : List Char :=
  strData "https://api.allorigins.win/raw?url=" ++ urlquote raw_url

/-- cached_get of proxy.py: the GET memoized by lru_cache with capacity
256, keyed by the exact URL string. -/
def cached_get (g : HttpGet) (st : Cache) (url : List Char) :
    Except String Json × Cache × Nat :=
  lruCall 256 g st url

/-- The Yahoo v7 quote URL built in fetch_yahoo_quote of proxy.py, with
the percent-encoded symbol. -/
def yahoo_quote_url (symbol : List Char) : List Char :=
  strData "https://query1.finance.yahoo.com/v7/finance/quote?symbols=" ++ urlquote symbol

/-- fetch_yahoo_quote of proxy.py: GET the AllOrigins-wrapped quote URL,
require a truthy quoteResponse.result, and return its first element. -/
def fetch_yahoo_quote (g : HttpGet) (symbol : List Char) : Except String Json := do
  let data ← g (proxy_url (yahoo_quote_url symbol))
  let qr ← pyDictGetE data "quoteResponse" (Json.obj [])
  let result ← pyDictGetE qr "result" (Json.arr [])
  if !pyTruthy result then throw "No Yahoo data for symbol"
  pyIndex0 result

/-- Response handling of fetch_stooq_quote in proxy.py; same checks as the
core.py variant, with the error messages of proxy.py. -/
def parse_stooq (data : Json) : Except String Rat :=
  match data with
  | .arr (row :: _) => do
    let close ← pyDictGetE row "close" Json.null
    if !pyTruthy close || jsonStrEq close "N/A" then throw "Stooq close not available"
    pyFloat close
  | .arr [] => .error "No Stooq data"
  | _ => .error "No Stooq data"

/-- fetch_stooq_quote of proxy.py: GET the AllOrigins-wrapped Stooq URL
(built from the same literal as core.py) and run the response handling. -/
def fetch_stooq_quote (g : HttpGet) (symbol : List Char) : Except String Rat := do
  let data ← g (proxy_url (Core.stooq_url symbol))
  parse_stooq data

/-- fetch_coingecko_price of proxy.py: GET the AllOrigins-wrapped
CoinGecko URL (built from the same literal as core.py), require the coin
and usd entries, and return the float price. -/
def fetch_coingecko_price (g : HttpGet) (coin_id : List Char) : Except String Rat := do
  let data ← g (proxy_url (Core.coingecko_url coin_id))
  coingecko_usd (String.mk coin_id) data

/-- The three response shapes get_price of proxy.py can return: the Yahoo
success dict, the Stooq fallback dict, or the total-failure dict. -/
inductive PriceResp where
  | yahoo (asset_type : String) (symbol : List Char) (price : Json)
  | stooq (asset_type : String) (symbol : List Char) (stooq_symbol : List Char) (price : Rat)
  | err (error : String) (symbol : List Char) (asset_type : String)

/-- The source field of a get_price response of proxy.py; the
total-failure dict carries no source key. -/
def PriceResp.source : PriceResp → Option String
  | .yahoo .. => some "yahoo"
  | .stooq .. => some "stooq"
  | .err .. => none

/-- The first try block of get_price in proxy.py: fetch the Yahoo quote
dict, read its regularMarketPrice, and produce the Yahoo response when
that price is not None; any exception or a None price falls through. -/
def yahoo_attempt (g : HttpGet) (asset_type : String) (symbol : List Char) :
    Option PriceResp :=
  match (do
      let q ← fetch_yahoo_quote g symbol
      pyDictGetE q "regularMarketPrice" Json.null : Except String Json) with
  | .ok price => if isNull price then none else some (.yahoo asset_type symbol price)
  | .error _ => none

/-- get_price of proxy.py: keep the raw symbol, upper-case a working copy,
classify it, try Yahoo first, fall back to the per-class Stooq symbol, and
on total failure report the raw (untranslated) symbol. -/
def get_price (g : HttpGet) (symbol0 : List Char) : PriceResp :=
  let raw_symbol := symbol0
  let symbol := pyUpper symbol0
  let asset_type := detect_asset_type symbol
  match yahoo_attempt g asset_type symbol with
  | some r => r
  | none =>
    let stq := stooq_symbol_for asset_type symbol
    match fetch_stooq_quote g stq with
    | .ok price => .stooq asset_type symbol stq price
    | .error _ => .err "Invalid symbol or no data available" raw_symbol asset_type

/-- get_futures of proxy.py: the get_price response with an endpoint tag
of futures added. -/
def get_futures (g : HttpGet) (symbol : List Char) : PriceResp × String :=
  (get_price g symbol, "futures")

/-- get_index of proxy.py: the get_price response with an endpoint tag of
index added. -/
def get_index (g : HttpGet) (symbol : List Char) : PriceResp × String :=
  (get_price g symbol, "index")

/-- The two response shapes get_crypto of proxy.py can return. -/
inductive CryptoResp where
  | ok (source : String) (symbol : List Char) (price : Rat)
  | err (error : String) (symbol : List Char)

/-- get_crypto of proxy.py: lower-case the symbol into a coin identifier
and fetch; every failure degrades to a success-shaped error dict carrying
the message and the symbol as given, never an HTTP error status. -/
def get_crypto (g : HttpGet) (symbol : List Char) : HttpOut CryptoResp :=
  let coin_id := pyLower symbol
  match fetch_coingecko_price g coin_id with
  | .ok price => .body (.ok "coingecko" (pyUpper coin_id) price)
  | .error e => .body (.err e symbol)

end Proxy

namespace Server

/-- WHITELISTED_DOMAINS of server.py: the allow-list of destination hosts
for the internal proxy and the cached GET. -/
def WHITELISTED_DOMAINS : List (List Char) :=
  [strData "query1.finance.yahoo.com", strData "query2.finance.yahoo.com",
   strData "stooq.com", strData "api.coingecko.com",
   strData "symbol-search.tradingview.com", strData "www.alphavantage.co",
   strData "finnhub.io"]

/-- The characters following the first scheme separator of a URL, if any,
mirroring how urlparse locates the network location. -/
def afterScheme : List Char → Option (List Char)
  | [] => none
  | c :: rest =>
    if leadMatch (strData "://") (c :: rest) then some (rest.drop 2)
    else afterScheme rest

/-- The network-location part of a URL: what follows the scheme separator
up to the first slash, question mark or hash; empty when the URL has no
scheme separator. -/
def netloc (url : List Char) : List Char :=
  match afterScheme url with
  | some rest => rest.takeWhile (fun c => ¬ (c = '/' ∨ c = '?' ∨ c = '#'))
  | none => []

/-- The host examined by _check_whitelist of server.py: the lower-cased
network location with any port suffix split off. -/
def hostOf (url : List Char) : List Char :=
  (pyLower (netloc url)).takeWhile (fun c => c ≠ ':')

/-- _check_whitelist of server.py as a predicate: does the host of the URL
belong to the allow-list? On failure the source raises an HTTPException
with status 400. -/
def check_whitelist (url : List Char) : Bool :=
  hostOf url ∈ WHITELISTED_DOMAINS

/-- cached_get_json of server.py: the GET memoized by lru_cache with
capacity 256. The allow-list check runs inside the cached function body,
so a disallowed host raises on every call and, like any other raised
failure, is never memoized. -/
def cached_get_json (g : HttpGet) (st : Cache) (url : List Char) :
    Except String Json × Cache × Nat :=
  lruCall 256
    (fun u =>
      if check_whitelist u then g u
      else .error ("Domain not allowed: " ++ String.mk (hostOf u)))
    st url

/-- What the transport returns to internal_proxy of server.py for a
completed exchange: the status code, the content type header, the raw
text, and the parsed JSON body when the text parses. -/
structure TransportResp where
  status_code : Nat
  contentType : String
  text : String
  jsonBody : Option Json

/-- The transport used by internal_proxy: a method name and URL with an
optional JSON request body either complete an exchange or raise a
requests.RequestException message. -/
abbrev Transport := String → List Char → Option Json → Except String TransportResp

/-- The two success bodies internal_proxy of server.py can return: the
passed-through JSON document, or the status-and-content dict. -/
inductive ProxyBody where
  | json (j : Json)
  | statusContent (status_code : Nat) (content : String)

/-- The response-shaping tail of internal_proxy in server.py: a JSON
content type with a parsable body passes the document through, everything
else becomes the status-and-content dict. -/
def proxyRespond (r : TransportResp) : HttpOut ProxyBody :=
  if strContains (strData "application/json") (strData r.contentType) then
    match r.jsonBody with
    | some j => .body (.json j)
    | none => .body (.statusContent r.status_code r.text)
  else .body (.statusContent r.status_code r.text)

/-- internal_proxy of server.py: reject a non-allow-listed host with HTTP
400, upper-case the method and support only GET and POST (else HTTP 400),
turn a transport failure into HTTP 502, and otherwise shape the response. -/
def internal_proxy (t : Transport) (url : List Char) (method : String)
    (reqBody : Option Json) : HttpOut ProxyBody :=
  if ¬ check_whitelist url then
    .httpError 400 ("Domain not allowed: " ++ String.mk (hostOf url))
  else
    let method_upper := String.mk (pyUpper method.data)
    if method_upper = "GET" then
      match t "GET" url none with
      | .ok r => proxyRespond r
      | .error e => .httpError 502 e
    else if method_upper = "POST" then
      match t "POST" url reqBody with
      | .ok r => proxyRespond r
      | .error e => .httpError 502 e
    else .httpError 400 "Only GET and POST are supported"

/-- The three response shapes get_price of server.py can return: the Yahoo
chart success dict (with metadata and OHLCV arrays), the Stooq fallback
dict, or the total-failure dict. -/
inductive PriceResp where
  | yahoo (asset_type : String) (symbol : List Char) (price : Json)
      (previousClose : Json) (exchangeName : Json) (currency : Json)
      (marketState : Json) (timestamps : Json) (opn : Json) (high : Json)
      (low : Json) (close : Json) (volume : Json)
  | stooq (asset_type : String) (symbol : List Char) (stooq_symbol : List Char) (price : Rat)
  | err (error : String) (symbol : List Char) (asset_type : String)

/-- The source field of a get_price response of server.py; the
total-failure dict carries no source key. -/
def PriceResp.source : PriceResp → Option String
  | .yahoo .. => some "yahoo_chart"
  | .stooq .. => some "stooq"
  | .err .. => none

/-- The first try block of get_price in server.py: fetch the Yahoo chart
and produce the Yahoo response when its regularMarketPrice is not None;
any exception or a None price falls through. -/
def yahoo_attempt (g : HttpGet) (asset_type : String) (symbol : List Char) :
    Option PriceResp :=
  match Core.fetch_yahoo_chart g symbol with
  | .ok chart =>
    if isNull chart.regularMarketPrice then none
    else some (.yahoo asset_type symbol chart.regularMarketPrice
        chart.previousClose chart.exchangeName chart.currency chart.marketState
        chart.timestamps chart.opn chart.high chart.low chart.close chart.volume)
  | .error _ => none

/-- get_price of server.py: upper-case the symbol (overwriting it, so no
raw spelling survives), classify it, try the Yahoo chart first, fall back
to the per-class Stooq symbol, and on total failure report the upper-cased
symbol. -/
def get_price (g : HttpGet) (symbol0 : List Char) : PriceResp :=
  let symbol := pyUpper symbol0
  let asset_type := detect_asset_type symbol
  match yahoo_attempt g asset_type symbol with
  | some r => r
  | none =>
    let stq := stooq_symbol_for asset_type symbol
    match Core.fetch_stooq_quote g stq with
    | .ok price => .stooq asset_type symbol stq price
    | .error _ => .err "Invalid symbol or no data available" symbol asset_type

/-- crypto_price of server.py: lower-case the symbol and fetch; a success
returns the quote dict, but any failure is re-raised as an HTTPException
with status 400 and the failure message as detail. -/
def crypto_price (g : HttpGet) (symbol0 : List Char) : HttpOut Core.CryptoQuote :=
  let symbol := pyLower symbol0
  match Core.fetch_crypto_price g symbol with
  | .ok r => .body r
  | .error e => .httpError 400 e

/-- The three response shapes futures_price and index_price of server.py
can return; their total-failure dict carries no asset_type field. -/
inductive FIResp where
  | yahoo (asset_type : String) (symbol : List Char) (price : Json)
      (previousClose : Json) (exchangeName : Json) (currency : Json)
      (marketState : Json) (timestamps : Json) (opn : Json) (high : Json)
      (low : Json) (close : Json) (volume : Json)
  | stooq (asset_type : String) (symbol : List Char) (stooq_symbol : List Char) (price : Rat)
  | err (error : String) (symbol : List Char)

/-- The Yahoo try block shared by futures_price and index_price of
server.py, with the asset type fixed by the endpoint. -/
def fi_yahoo_attempt (g : HttpGet) (asset_type : String) (symbol : List Char) :
    Option FIResp :=
  match Core.fetch_yahoo_chart g symbol with
  | .ok chart =>
    if isNull chart.regularMarketPrice then none
    else some (.yahoo asset_type symbol chart.regularMarketPrice
        chart.previousClose chart.exchangeName chart.currency chart.marketState
        chart.timestamps chart.opn chart.high chart.low chart.close chart.volume)
  | .error _ => none

/-- futures_price of server.py: upper-case, try the Yahoo chart tagged as
future, fall back to the future Stooq translation, and on total failure
return the invalid-future error dict. -/
def futures_price (g : HttpGet) (symbol0 : List Char) : FIResp :=
  let symbol := pyUpper symbol0
  match fi_yahoo_attempt g "future" symbol with
  | some r => r
  | none =>
    let stq := stooq_symbol_for_future symbol
    match Core.fetch_stooq_quote g stq with
    | .ok price => .stooq "future" symbol stq price
    | .error _ => .err "Invalid future symbol" symbol

/-- index_price of server.py: upper-case, try the Yahoo chart tagged as
index, fall back to the index Stooq translation, and on total failure
return the invalid-index error dict. -/
def index_price (g : HttpGet) (symbol0 : List Char) : FIResp :=
  let symbol := pyUpper symbol0
  match fi_yahoo_attempt g "index" symbol with
  | some r => r
  | none =>
    let stq := stooq_symbol_for_index symbol
    match Core.fetch_stooq_quote g stq with
    | .ok price => .stooq "index" symbol stq price
    | .error _ => .err "Invalid index symbol" symbol

end Server

/-- The equal-length invariant claimed for the chart arrays, over the
extracted fields: whenever one of the five OHLCV arrays is non-empty, the
five arrays and the timestamp array all share one length. -/
def ohlcvAlignedF (f : Core.ChartFields) : Bool :=
  if jsonIsNonemptyArr f.opn || jsonIsNonemptyArr f.high || jsonIsNonemptyArr f.low
      || jsonIsNonemptyArr f.close || jsonIsNonemptyArr f.volume then
    (jsonArrLen f.high == jsonArrLen f.opn) && (jsonArrLen f.low == jsonArrLen f.opn)
      && (jsonArrLen f.close == jsonArrLen f.opn)
      && (jsonArrLen f.volume == jsonArrLen f.opn)
      && (jsonArrLen f.timestamps == jsonArrLen f.opn)
  else true

/-- The equal-length invariant claimed for the chart arrays, over the
assembled fetch_yahoo_chart result. -/
def ohlcvAligned (c : Core.YahooChart) : Bool :=
  if jsonIsNonemptyArr c.opn || jsonIsNonemptyArr c.high || jsonIsNonemptyArr c.low
      || jsonIsNonemptyArr c.close || jsonIsNonemptyArr c.volume then
    (jsonArrLen c.high == jsonArrLen c.opn) && (jsonArrLen c.low == jsonArrLen c.opn)
      && (jsonArrLen c.close == jsonArrLen c.opn)
      && (jsonArrLen c.volume == jsonArrLen c.opn)
      && (jsonArrLen c.timestamps == jsonArrLen c.opn)
  else true

/-- Does the provider document itself satisfy the equal-length invariant
at the positions fetch_yahoo_chart reads? Vacuously true when extraction
fails before reaching the arrays. -/
def chartSourceAligned (data : Json) : Bool :=
  match Core.chart_fields data with
  | .ok f => ohlcvAlignedF f
  | .error _ => true

/-- Witness oracle: every URL mentioning the Stooq host answers with a
one-row quote whose close is the number 4500; every other URL fails. -/
def wStooqOracle : HttpGet := fun url =>
  if strContains (strData "stooq.com") url then
    .ok (Json.arr [Json.obj [("symbol", Json.str "X"), ("close", Json.num 4500)]])
  else .error "connection refused"

/-- Witness oracle: every outbound request fails. -/
def wFailOracle : HttpGet := fun _ => .error "connection refused"

/-- Witness document: a chart answer whose first result carries one
timestamp but a two-entry open array, so the OHLCV arrays disagree in
length while open is non-empty. -/
def wMisalignedChartDoc : Json :=
  Json.obj [("chart", Json.obj [("result", Json.arr [Json.obj
    [("meta", Json.obj [("regularMarketPrice", Json.num 5)]),
     ("timestamp", Json.arr [Json.num 1700000000]),
     ("indicators", Json.obj [("quote", Json.arr [Json.obj
       [("open", Json.arr [Json.null, Json.num 3])]])])]])])]

/-- Witness oracle: every URL answers with the misaligned chart document. -/
def wMisalignedOracle : HttpGet := fun _ => .ok wMisalignedChartDoc

/-- Witness oracle for the cache claims: every URL answers with the
number one. -/
def wConstOracle : HttpGet := fun _ => .ok (Json.num 1)

/-- Witness document: a chart answer whose timestamp and five OHLCV
arrays all have length one. -/
def wAlignedChartDoc : Json :=
  Json.obj [("chart", Json.obj [("result", Json.arr [Json.obj
    [("meta", Json.obj [("regularMarketPrice", Json.num 5)]),
     ("timestamp", Json.arr [Json.num 1700000000]),
     ("indicators", Json.obj [("quote", Json.arr [Json.obj
       [("open", Json.arr [Json.num 1]), ("high", Json.arr [Json.num 2]),
        ("low", Json.arr [Json.num 3]), ("close", Json.arr [Json.num 4]),
        ("volume", Json.arr [Json.num 5])]])])]])])]

theorem pyUpperChar_caret (c : Char) : pyUpperChar c = '^' ↔ c = '^' := by
  unfold pyUpperChar
  split <;> simp_all

theorem pyUpperChar_eq_sign (c : Char) : pyUpperChar c = '=' ↔ c = '=' := by
  unfold pyUpperChar
  split <;> simp_all

theorem pyUpper_head_caret (t : List Char) :
    (pyUpper t).head? = some '^' ↔ t.head? = some '^' := by
  cases t with
  | nil => simp [pyUpper]
  | cons c cs => simp [pyUpper, pyUpperChar_caret]

theorem pyUpper_mem_eq_sign (t : List Char) : '=' ∈ pyUpper t ↔ '=' ∈ t := by
  unfold pyUpper
  constructor
  · intro h
    obtain ⟨c, hc, he⟩ := List.mem_map.mp h
    rwa [(pyUpperChar_eq_sign c).mp he] at hc
  · intro h
    exact List.mem_map.mpr ⟨'=', h, (pyUpperChar_eq_sign '=').mpr rfl⟩

theorem detect_upper_eq (s : List Char) :
    detect_asset_type (pyUpper s) = detect_asset_type s := by
  unfold detect_asset_type
  by_cases h1 : (pyUpper s).head? = some '^'
  · rw [if_pos ((pyUpper_head_caret (pyUpper s)).mpr h1), if_pos h1]
  · rw [if_neg (fun hc => h1 ((pyUpper_head_caret (pyUpper s)).mp hc)), if_neg h1]
    by_cases h2 : '=' ∈ pyUpper s
    · rw [if_pos ((pyUpper_mem_eq_sign (pyUpper s)).mpr h2), if_pos h2]
    · rw [if_neg (fun hc => h2 ((pyUpper_mem_eq_sign (pyUpper s)).mp hc)), if_neg h2]

/-- Claim C2: classification applies its rules in priority order on any
symbol string: a leading caret yields index regardless of any equals sign
also present, an equals sign anywhere in a symbol not starting with a
caret yields future, and everything else yields stock. The classifier is
a total pure function, so it is deterministic, does no I/O and never
fails by construction. -/
theorem classify_priority_rules (s : List Char) :
    (s.head? = some '^' → detect_asset_type s = "index")
    ∧ ('=' ∈ s ∧ s.head? ≠ some '^' → detect_asset_type s = "future")
    ∧ (s.head? ≠ some '^' ∧ '=' ∉ s → detect_asset_type s = "stock") := by
  refine ⟨fun h => ?_, fun h => ?_, fun h => ?_⟩
  · have h1 : (pyUpper s).head? = some '^' := (pyUpper_head_caret s).mpr h
    simp [detect_asset_type, h1]
  · have h1 : ¬ (pyUpper s).head? = some '^' :=
      fun hc => h.2 ((pyUpper_head_caret s).mp hc)
    have h2 : '=' ∈ pyUpper s := (pyUpper_mem_eq_sign s).mpr h.1
    simp [detect_asset_type, h1, h2]
  · have h1 : ¬ (pyUpper s).head? = some '^' :=
      fun hc => h.1 ((pyUpper_head_caret s).mp hc)
    have h2 : ¬ '=' ∈ pyUpper s :=
      fun hc => h.2 ((pyUpper_mem_eq_sign s).mp hc)
    simp [detect_asset_type, h1, h2]

theorem classify_priority_rules_witness :
    detect_asset_type (strData "^GSPC=X") = "index"
    ∧ detect_asset_type (strData "CL=F") = "future"
    ∧ detect_asset_type (strData "aapl") = "stock" :=
  ⟨(classify_priority_rules (strData "^GSPC=X")).1 (by decide),
   (classify_priority_rules (strData "CL=F")).2.1 (by decide),
   (classify_priority_rules (strData "aapl")).2.2 (by decide)⟩

/-- Claim C9: the classifier is total and returns exactly one of stock,
future or index, never crypto, and classifying a symbol gives the same
answer as classifying its upper-cased form. -/
theorem classifier_total_and_case_insensitive (s : List Char) :
    (detect_asset_type s = "stock" ∨ detect_asset_type s = "future"
      ∨ detect_asset_type s = "index")
    ∧ detect_asset_type s ≠ "crypto"
    ∧ detect_asset_type (pyUpper s) = detect_asset_type s := by
  refine ⟨?_, ?_, detect_upper_eq s⟩
  · simp only [detect_asset_type]
    split
    · exact Or.inr (Or.inr rfl)
    · split
      · exact Or.inr (Or.inl rfl)
      · exact Or.inl rfl
  · simp only [detect_asset_type]
    split
    · simp
    · split <;> simp

/-- Claim C6: the Stooq symbol translations on the fixed examples, for the
translation functions shared textually by core.py and proxy.py; each is a
total pure function of the symbol string. -/
theorem stooq_translation_examples :
    stooq_symbol_for_stock (strData "AAPL") = strData "aapl.us"
    ∧ stooq_symbol_for_future (strData "CL=F") = strData "cl.f"
    ∧ stooq_symbol_for_index (strData "^GSPC") = strData "^gspc" := by
  decide

/-- Claim C1: in both revisions of the /price resolver, when the Yahoo
attempt fails (a raised failure or a missing price) and the Stooq attempt
for the translated symbol succeeds, the returned response is the Stooq
quote: its source field is the string stooq, demonstrating that providers
are attempted primary first and the loop returns on the first success. -/
theorem fallback_returns_stooq_on_yahoo_failure
    (g : HttpGet) (raw : List Char) (p q : Rat)
    (hS1 : Server.yahoo_attempt g (detect_asset_type (pyUpper raw)) (pyUpper raw) = none)
    (hS2 : Core.fetch_stooq_quote g
        (stooq_symbol_for (detect_asset_type (pyUpper raw)) (pyUpper raw)) = .ok p)
    (hP1 : Proxy.yahoo_attempt g (detect_asset_type (pyUpper raw)) (pyUpper raw) = none)
    (hP2 : Proxy.fetch_stooq_quote g
        (stooq_symbol_for (detect_asset_type (pyUpper raw)) (pyUpper raw)) = .ok q) :
    (Server.get_price g raw).source = some "stooq"
    ∧ (Proxy.get_price g raw).source = some "stooq" := by
  constructor
  · simp [Server.get_price, hS1, hS2, Server.PriceResp.source]
  · simp [Proxy.get_price, hP1, hP2, Proxy.PriceResp.source]

theorem fallback_returns_stooq_on_yahoo_failure_witness :
    (Server.get_price wStooqOracle (strData "AAPL")).source = some "stooq"
    ∧ (Proxy.get_price wStooqOracle (strData "AAPL")).source = some "stooq" :=
  fallback_returns_stooq_on_yahoo_failure wStooqOracle (strData "AAPL")
    (4500 : Rat) (4500 : Rat) rfl rfl rfl rfl

/-- Counterexample to claim C4: with every provider failing, the server.py
revision of get_price reports the upper-cased symbol, not the raw spelling
the caller supplied: on the raw symbol aapl the failure dict carries AAPL. -/
theorem allproviders_failure_drops_raw_spelling :
    Server.get_price wFailOracle (strData "aapl")
      = Server.PriceResp.err "Invalid symbol or no data available" (strData "AAPL") "stock"
    ∧ strData "AAPL" ≠ strData "aapl" :=
  ⟨rfl, by decide⟩

/-- Claim C4 as amended: when every candidate provider fails, both
resolvers return the aggregate failure dict carrying the asset class; the
proxy.py revision reports the original raw (untranslated) symbol, while
the server.py revision reports the upper-cased canonical form instead. -/
theorem allproviders_failure_symbol_fields
    (g : HttpGet) (raw : List Char) (e1 e2 : String)
    (hS1 : Server.yahoo_attempt g (detect_asset_type (pyUpper raw)) (pyUpper raw) = none)
    (hS2 : Core.fetch_stooq_quote g
        (stooq_symbol_for (detect_asset_type (pyUpper raw)) (pyUpper raw)) = .error e1)
    (hP1 : Proxy.yahoo_attempt g (detect_asset_type (pyUpper raw)) (pyUpper raw) = none)
    (hP2 : Proxy.fetch_stooq_quote g
        (stooq_symbol_for (detect_asset_type (pyUpper raw)) (pyUpper raw)) = .error e2) :
    Server.get_price g raw
      = Server.PriceResp.err "Invalid symbol or no data available" (pyUpper raw)
          (detect_asset_type (pyUpper raw))
    ∧ Proxy.get_price g raw
      = Proxy.PriceResp.err "Invalid symbol or no data available" raw
          (detect_asset_type (pyUpper raw)) := by
  constructor
  · simp [Server.get_price, hS1, hS2]
  · simp [Proxy.get_price, hP1, hP2]

theorem allproviders_failure_symbol_fields_witness :
    Server.get_price wFailOracle (strData "aapl")
      = Server.PriceResp.err "Invalid symbol or no data available"
          (pyUpper (strData "aapl")) (detect_asset_type (pyUpper (strData "aapl")))
    ∧ Proxy.get_price wFailOracle (strData "aapl")
      = Proxy.PriceResp.err "Invalid symbol or no data available" (strData "aapl")
          (detect_asset_type (pyUpper (strData "aapl"))) :=
  allproviders_failure_symbol_fields wFailOracle (strData "aapl")
    "connection refused" "connection refused" rfl rfl rfl rfl

theorem cacheLookup_cons_self (st : Cache) (url : List Char) (v : Json) :
    cacheLookup ((url, v) :: st) url = some v := by
  simp [cacheLookup]

theorem lruCall_miss_then_hit (cap : Nat) (b : HttpGet) (st : Cache)
    (url : List Char) (v : Json) (hcap : 0 < cap)
    (h1 : cacheLookup st url = none) (h2 : b url = .ok v) :
    lruCall cap b st url = (.ok v, ((url, v) :: st).take cap, 1)
    ∧ (lruCall cap b (((url, v) :: st).take cap) url).1 = .ok v
    ∧ (lruCall cap b (((url, v) :: st).take cap) url).2.2 = 0 := by
  have e1 : lruCall cap b st url = (.ok v, ((url, v) :: st).take cap, 1) := by
    unfold lruCall
    rw [h1, h2]
  have hl : cacheLookup (((url, v) :: st).take cap) url = some v := by
    obtain ⟨n, rfl⟩ : ∃ n, cap = n + 1 := ⟨cap - 1, by omega⟩
    rw [List.take_succ_cons]
    exact cacheLookup_cons_self _ url v
  refine ⟨e1, ?_, ?_⟩ <;> (unfold lruCall; rw [hl])

/-- Claim C3: for both memoized GET helpers, starting from any memo state
not yet holding the URL, a successful fetch followed by a second call with
the identical URL returns the identical parsed document both times while
running the underlying fetch exactly once: the second call is a hit inside
the 256-entry capacity and performs no fetch. -/
theorem cached_get_second_call_hits
    (g : HttpGet) (st st2 : Cache) (url url2 : List Char) (v w : Json)
    (h1 : cacheLookup st url = none) (h2 : g url = .ok v)
    (h3 : cacheLookup st2 url2 = none) (h4 : Server.check_whitelist url2 = true)
    (h5 : g url2 = .ok w) :
    ((Proxy.cached_get g st url).1 = .ok v
      ∧ (Proxy.cached_get g st url).2.2 = 1
      ∧ (Proxy.cached_get g (Proxy.cached_get g st url).2.1 url).1 = .ok v
      ∧ (Proxy.cached_get g (Proxy.cached_get g st url).2.1 url).2.2 = 0)
    ∧ ((Server.cached_get_json g st2 url2).1 = .ok w
      ∧ (Server.cached_get_json g st2 url2).2.2 = 1
      ∧ (Server.cached_get_json g (Server.cached_get_json g st2 url2).2.1 url2).1 = .ok w
      ∧ (Server.cached_get_json g (Server.cached_get_json g st2 url2).2.1 url2).2.2 = 0) := by
  constructor
  · obtain ⟨e1, e2, e3⟩ := lruCall_miss_then_hit 256 g st url v (by omega) h1 h2
    refine ⟨?_, ?_, ?_, ?_⟩ <;>
      simp only [Proxy.cached_get, e1, e2, e3]
  · have h5b : (fun u =>
        if Server.check_whitelist u then g u
        else .error ("Domain not allowed: " ++ String.mk (Server.hostOf u))) url2
        = .ok w := by
      simp only [h4, if_true, h5]
    obtain ⟨e1, e2, e3⟩ := lruCall_miss_then_hit 256
      (fun u =>
        if Server.check_whitelist u then g u
        else .error ("Domain not allowed: " ++ String.mk (Server.hostOf u)))
      st2 url2 w (by omega) h3 h5b
    refine ⟨?_, ?_, ?_, ?_⟩ <;>
      simp only [Server.cached_get_json, e1, e2, e3]

theorem cached_get_second_call_hits_witness :
    ((Proxy.cached_get wConstOracle [] (strData "https://stooq.com/a")).1 = .ok (Json.num 1)
      ∧ (Proxy.cached_get wConstOracle [] (strData "https://stooq.com/a")).2.2 = 1
      ∧ (Proxy.cached_get wConstOracle
          (Proxy.cached_get wConstOracle [] (strData "https://stooq.com/a")).2.1
          (strData "https://stooq.com/a")).1 = .ok (Json.num 1)
      ∧ (Proxy.cached_get wConstOracle
          (Proxy.cached_get wConstOracle [] (strData "https://stooq.com/a")).2.1
          (strData "https://stooq.com/a")).2.2 = 0)
    ∧ ((Server.cached_get_json wConstOracle [] (strData "https://stooq.com/a")).1 = .ok (Json.num 1)
      ∧ (Server.cached_get_json wConstOracle [] (strData "https://stooq.com/a")).2.2 = 1
      ∧ (Server.cached_get_json wConstOracle
          (Server.cached_get_json wConstOracle [] (strData "https://stooq.com/a")).2.1
          (strData "https://stooq.com/a")).1 = .ok (Json.num 1)
      ∧ (Server.cached_get_json wConstOracle
          (Server.cached_get_json wConstOracle [] (strData "https://stooq.com/a")).2.1
          (strData "https://stooq.com/a")).2.2 = 0) :=
  cached_get_second_call_hits wConstOracle [] [] (strData "https://stooq.com/a")
    (strData "https://stooq.com/a") (Json.num 1) (Json.num 1) rfl rfl rfl rfl rfl

/-- Claim C10: a fetch that raises is never memoized. For the proxy.py
cache, a failing GET on a URL not yet stored leaves the memo state
untouched and a second identical call runs the fetch afresh. For the
server.py cache, the allow-list check runs inside the cached body, so a
disallowed host raises and is likewise never stored, a transport failure
on an allow-listed host is never stored, and every repeat call re-runs
the body instead of hitting the cache. -/
theorem failed_fetch_never_memoized
    (g : HttpGet) (st st2 st3 : Cache) (url url2 url3 : List Char) (e e3 : String)
    (h1 : cacheLookup st url = none) (h2 : g url = .error e)
    (h3 : cacheLookup st2 url2 = none) (h4 : Server.check_whitelist url2 = false)
    (h5 : cacheLookup st3 url3 = none) (h6 : Server.check_whitelist url3 = true)
    (h7 : g url3 = .error e3) :
    (Proxy.cached_get g st url = (.error e, st, 1)
      ∧ Proxy.cached_get g (Proxy.cached_get g st url).2.1 url = (.error e, st, 1))
    ∧ (Server.cached_get_json g st2 url2
        = (.error ("Domain not allowed: " ++ String.mk (Server.hostOf url2)), st2, 1)
      ∧ Server.cached_get_json g (Server.cached_get_json g st2 url2).2.1 url2
        = (.error ("Domain not allowed: " ++ String.mk (Server.hostOf url2)), st2, 1))
    ∧ (Server.cached_get_json g st3 url3 = (.error e3, st3, 1)
      ∧ Server.cached_get_json g (Server.cached_get_json g st3 url3).2.1 url3
        = (.error e3, st3, 1)) := by
  have eP : Proxy.cached_get g st url = (.error e, st, 1) := by
    unfold Proxy.cached_get lruCall
    rw [h1, h2]
  have eS : Server.cached_get_json g st2 url2
      = (.error ("Domain not allowed: " ++ String.mk (Server.hostOf url2)), st2, 1) := by
    unfold Server.cached_get_json lruCall
    rw [h3]
    simp [h4]
  have eT : Server.cached_get_json g st3 url3 = (.error e3, st3, 1) := by
    unfold Server.cached_get_json lruCall
    rw [h5]
    simp [h6, h7]
  refine ⟨⟨eP, ?_⟩, ⟨eS, ?_⟩, ⟨eT, ?_⟩⟩
  · rw [eP]
    exact eP
  · rw [eS]
    exact eS
  · rw [eT]
    exact eT

theorem failed_fetch_never_memoized_witness :
    (Proxy.cached_get wFailOracle [] (strData "https://stooq.com/a")
        = (.error "connection refused", [], 1)
      ∧ Proxy.cached_get wFailOracle
          (Proxy.cached_get wFailOracle [] (strData "https://stooq.com/a")).2.1
          (strData "https://stooq.com/a")
        = (.error "connection refused", [], 1))
    ∧ (Server.cached_get_json wFailOracle [] (strData "https://evil.example.com/x")
        = (.error ("Domain not allowed: "
            ++ String.mk (Server.hostOf (strData "https://evil.example.com/x"))), [], 1)
      ∧ Server.cached_get_json wFailOracle
          (Server.cached_get_json wFailOracle [] (strData "https://evil.example.com/x")).2.1
          (strData "https://evil.example.com/x")
        = (.error ("Domain not allowed: "
            ++ String.mk (Server.hostOf (strData "https://evil.example.com/x"))), [], 1))
    ∧ (Server.cached_get_json wFailOracle [] (strData "https://stooq.com/a")
        = (.error "connection refused", [], 1)
      ∧ Server.cached_get_json wFailOracle
          (Server.cached_get_json wFailOracle [] (strData "https://stooq.com/a")).2.1
          (strData "https://stooq.com/a")
        = (.error "connection refused", [], 1)) :=
  failed_fetch_never_memoized wFailOracle [] [] [] (strData "https://stooq.com/a")
    (strData "https://evil.example.com/x") (strData "https://stooq.com/a")
    "connection refused" "connection refused" rfl rfl rfl rfl rfl rfl rfl

/-- Counterexample to claim C5: the /crypto endpoint of server.py is a
quote-resolution path, yet a provider failure there surfaces as an HTTP
error status (an HTTPException with status 400), not as a success-shaped
JSON body with an error field. -/
theorem crypto_failure_surfaces_http_error :
    Server.crypto_price wFailOracle (strData "bitcoin")
      = HttpOut.httpError 400 "connection refused" := rfl

theorem proxyRespond_is_body (r : Server.TransportResp) :
    ∃ x, Server.proxyRespond r = HttpOut.body x := by
  unfold Server.proxyRespond
  split
  · split <;> exact ⟨_, rfl⟩
  · exact ⟨_, rfl⟩

/-- Claim C5 as amended: proxy.py degrades every /crypto failure to a
success-shaped body carrying the error message, whereas server.py's
/crypto either returns a body or surfaces HTTP 400; the generic forwarding
endpoint /proxy surfaces failures as HTTP 400 or 502. (The /price,
/futures and /index handlers of both revisions swallow every failure and
are embedded as total body-valued functions.) -/
theorem quote_endpoint_error_shapes :
    (∀ (g : HttpGet) (s : List Char),
        (∃ p, Proxy.get_crypto g s
          = HttpOut.body (Proxy.CryptoResp.ok "coingecko" (pyUpper (pyLower s)) p))
        ∨ (∃ e, Proxy.get_crypto g s = HttpOut.body (Proxy.CryptoResp.err e s)))
    ∧ (∀ (g : HttpGet) (s : List Char),
        (∃ r, Server.crypto_price g s = HttpOut.body r)
        ∨ (∃ e, Server.crypto_price g s = HttpOut.httpError 400 e))
    ∧ (∀ (t : Server.Transport) (url : List Char) (m : String) (b : Option Json),
        (∃ r, Server.internal_proxy t url m b = HttpOut.body r)
        ∨ (∃ d, Server.internal_proxy t url m b = HttpOut.httpError 400 d)
        ∨ (∃ d, Server.internal_proxy t url m b = HttpOut.httpError 502 d)) := by
  refine ⟨fun g s => ?_, fun g s => ?_, fun t url m b => ?_⟩
  · cases h : Proxy.fetch_coingecko_price g (pyLower s) with
    | ok p => exact Or.inl ⟨p, by simp [Proxy.get_crypto, h]⟩
    | error e => exact Or.inr ⟨e, by simp [Proxy.get_crypto, h]⟩
  · cases h : Core.fetch_crypto_price g (pyLower s) with
    | ok r => exact Or.inl ⟨r, by simp [Server.crypto_price, h]⟩
    | error e => exact Or.inr ⟨e, by simp [Server.crypto_price, h]⟩
  · unfold Server.internal_proxy
    by_cases hw : Server.check_whitelist url
    · simp only [hw, not_true, if_false, if_neg (fun hc : ¬ True => hc trivial)]
      split
      · cases ht : t "GET" url none with
        | ok r =>
          obtain ⟨x, hx⟩ := proxyRespond_is_body r
          exact Or.inl ⟨x, hx⟩
        | error e => exact Or.inr (Or.inr ⟨e, rfl⟩)
      · split
        · cases ht : t "POST" url b with
          | ok r =>
            obtain ⟨x, hx⟩ := proxyRespond_is_body r
            exact Or.inl ⟨x, hx⟩
          | error e => exact Or.inr (Or.inr ⟨e, rfl⟩)
        · exact Or.inr (Or.inl ⟨"Only GET and POST are supported", rfl⟩)
    · exact Or.inr (Or.inl
        ⟨"Domain not allowed: " ++ String.mk (Server.hostOf url), by simp [hw]⟩)

/-- Claim C7: the relay layer wraps each outbound quote fetch of proxy.py
in the single configured relay (AllOrigins) and attempts it first; when
that relayed request fails, the failure is surfaced unchanged as the last
encountered error, there being no further fallback relays configured. The
core.py fetch is the zero-relay case: the target is called directly and a
failure is surfaced unchanged. -/
theorem relay_failure_surfaced
    (g : HttpGet) (sym stq coin : List Char) (e1 e2 e3 e4 : String)
    (h1 : g (Proxy.proxy_url (Proxy.yahoo_quote_url sym)) = .error e1)
    (h2 : g (Proxy.proxy_url (Core.stooq_url stq)) = .error e2)
    (h3 : g (Proxy.proxy_url (Core.coingecko_url coin)) = .error e3)
    (h4 : g (Core.yahoo_chart_url sym) = .error e4) :
    Proxy.fetch_yahoo_quote g sym = .error e1
    ∧ Proxy.fetch_stooq_quote g stq = .error e2
    ∧ Proxy.fetch_coingecko_price g coin = .error e3
    ∧ Core.fetch_yahoo_chart g sym = .error e4 := by
  refine ⟨?_, ?_, ?_, ?_⟩
  · unfold Proxy.fetch_yahoo_quote
    rw [h1]
    rfl
  · unfold Proxy.fetch_stooq_quote
    rw [h2]
    rfl
  · unfold Proxy.fetch_coingecko_price
    rw [h3]
    rfl
  · unfold Core.fetch_yahoo_chart
    rw [h4]
    rfl

theorem relay_failure_surfaced_witness :
    Proxy.fetch_yahoo_quote wFailOracle (strData "AAPL") = .error "connection refused"
    ∧ Proxy.fetch_stooq_quote wFailOracle (strData "aapl.us") = .error "connection refused"
    ∧ Proxy.fetch_coingecko_price wFailOracle (strData "bitcoin") = .error "connection refused"
    ∧ Core.fetch_yahoo_chart wFailOracle (strData "AAPL") = .error "connection refused" :=
  relay_failure_surfaced wFailOracle (strData "AAPL") (strData "aapl.us") (strData "bitcoin")
    "connection refused" "connection refused" "connection refused" "connection refused"
    rfl rfl rfl rfl

/-- Counterexample to claim C8: fetch_yahoo_chart enforces no length
relation between the OHLCV arrays; a provider document with a two-entry
open array and a one-entry timestamp array is returned as is, with the
open array non-empty and the lengths disagreeing. -/
theorem chart_arrays_can_misalign :
    ∃ c, Core.fetch_yahoo_chart wMisalignedOracle (strData "AAPL") = .ok c
      ∧ ohlcvAligned c = false :=
  ⟨_, rfl, rfl⟩

/-- Claim C8 as amended: fetch_yahoo_chart passes the provider arrays
through verbatim (with an empty-list default for each missing array), so
its result satisfies the equal-length invariant exactly when the provider
document does at the read positions; in particular missing data points
survive as nulls inside the arrays and no array is ever shortened. -/
theorem chart_arrays_aligned_iff_source
    (s : List Char) (data : Json) (c : Core.YahooChart)
    (h : Core.parse_yahoo_chart s data = .ok c)
    (ha : chartSourceAligned data = true) :
    ohlcvAligned c = true := by
  unfold Core.parse_yahoo_chart at h
  cases hf : Core.chart_fields data with
  | error e =>
    rw [hf] at h
    exact absurd h (by simp [Except.map])
  | ok f =>
    rw [hf] at h
    simp only [Except.map] at h
    cases h
    unfold chartSourceAligned at ha
    rw [hf] at ha
    exact ha

theorem chart_arrays_aligned_iff_source_witness :
    ∃ c, Core.parse_yahoo_chart (strData "AAPL") wAlignedChartDoc = .ok c
      ∧ ohlcvAligned c = true :=
  ⟨_, rfl, chart_arrays_aligned_iff_source (strData "AAPL") wAlignedChartDoc _ rfl rfl⟩
